import Mathlib

/-!
# Verification of the fall-detection backend core

Shallow embedding, in Lean 4, of the parts of the `ai-driven-fall-detection`
repository that the frozen claims are about:

* `raspberry-pi-backend/mqtt_broker/mqtt_client.py` — the delivery tracker
  (QoS-1 publish, pending-message tracking, background retry, statistics);
* `raspberry-pi-backend/api/main.py` — the ingestion normalizer
  (`handle_mqtt_message`, lines 126-235);
* `raspberry-pi-backend/ml_models/fall_detector.py` — the fusion scorer;
* `raspberry-pi-backend/alerts/alert_engine.py` — the trend evaluator's
  rapid-fluctuation check;
* `raspberry-pi-backend/ml_models/ml_alert_predictor.py` — severity selection
  of the anomaly overlay.

Python floats are modelled as `Rat` (the numeric literals of the source are
exact decimals, so the arithmetic of every claim is exact), machine time as an
explicit parameter, and dictionaries as association lists preserving insertion
order. Code wrapped in `try/except` with a default is modelled by total
functions returning that default at the raise points; code that re-raises is
modelled with `Except`.
-/

namespace FallDetectionSpec

/-! ## Delivery tracker — `mqtt_broker/mqtt_client.py`

`PendingMessage` (lines 20-30) and `MessageStats` (lines 32-48), with
`MQTTClientState` holding the tracking fields of `MQTTClient.__init__`
(lines 53-86) that the publish/ack/retry paths touch. -/

/-- `PendingMessage` dataclass (mqtt_client.py lines 20-30): a message waiting
for acknowledgment. `timestamp` is `time.time()`; defaults as in the source
(`retry_count = 0`, `max_retries = 3`, `retry_delay = 2.0` seconds). -/
structure PendingMessage where
  message_id : Nat
  topic : String
  payload : String
  qos : Nat
  timestamp : Rat
  retry_count : Nat := 0
  max_retries : Nat := 3
  retry_delay : Rat := 2
  deriving Repr, DecidableEq

/-- `MessageStats` dataclass (mqtt_client.py lines 32-40). -/
structure MessageStats where
  total_published : Nat := 0
  total_acknowledged : Nat := 0
  total_failed : Nat := 0
  total_received : Nat := 0
  total_retried : Nat := 0
  pending_messages : Nat := 0
  deriving Repr, DecidableEq

/-- `MessageStats.get_reliability` (mqtt_client.py lines 42-48): percentage of
acknowledged over published, and 100.0 when nothing was published. -/
def MessageStats.get_reliability (s : MessageStats) : Rat :=
  if s.total_published = 0 then 100
  else ((s.total_acknowledged : Rat) / (s.total_published : Rat)) * 100

/-- The pending-message dictionary `self.pending_messages : Dict[int, PendingMessage]`
is modelled as an insertion-ordered association list with unique keys. -/
abbrev PendingMap := List (Nat × PendingMessage)

/-- Python `d.get(mid)` / `mid in d` membership on the association list. -/
def lookupKey (k : Nat) : PendingMap → Option PendingMessage
  | [] => none
  | (a, v) :: rest => if a = k then some v else lookupKey k rest

/-- `mid in self.pending_messages`. -/
def containsKey (k : Nat) : PendingMap → Bool
  | [] => false
  | (a, _) :: rest => if a = k then true else containsKey k rest

/-- `self.pending_messages.pop(mid)`: removal of the unique entry keyed `k`. -/
def eraseKey (k : Nat) : PendingMap → PendingMap
  | [] => []
  | (a, v) :: rest => if a = k then rest else (a, v) :: eraseKey k rest

/-- `self.pending_messages[mid] = msg`: Python dict assignment keeps an existing
key in place and appends a fresh key at the end. -/
def upsert (k : Nat) (v : PendingMessage) (l : PendingMap) : PendingMap :=
  if containsKey k l then
    l.map (fun p => if p.1 = k then (k, v) else p)
  else l ++ [(k, v)]

/-- The mutable state of `MQTTClient` consulted by publish/ack/retry
(mqtt_client.py lines 53-71): connection flag, pending map, the message-id
counter used for offline queued messages, and the statistics record. -/
structure MQTTClientState where
  connected : Bool := false
  pending_messages : PendingMap := []
  message_id_counter : Nat := 0
  stats : MessageStats := {}
  deriving Repr, DecidableEq

/-- The two exceptions `MQTTClient.publish` can raise (lines 293 and 330):
`Exception("MQTT client not connected")` — the transport-unavailable error —
and `Exception(f"Failed to publish: rc")`. -/
inductive PubError where
  | notConnected
  | publishFailed (rc : Nat)
  deriving Repr, DecidableEq

/-- Environment inputs of one `client.publish` call: whether the paho call
returned `MQTT_ERR_SUCCESS`, the broker-assigned `mid`, and `time.time()`. -/
structure PublishEnv where
  rc_success : Bool
  broker_mid : Nat
  now : Rat
  deriving Repr, DecidableEq

/-- `qos = qos or self.qos_level` (line 295, and line 292): a `None` or `0`
argument falls back to the client's QoS level 1. -/
def effQos (qos : Option Nat) : Nat :=
  match qos with
  | some q => if q = 0 then 1 else q
  | none => 1

/-- `MQTTClient._queue_message_for_retry` (mqtt_client.py lines 332-353):
allocate the next counter value as the mid, register a fresh `PendingMessage`
with `retry_count = 0`, bump `total_published`, and refresh the pending-count
statistic. Returns the mid together with the new state. -/
def queue_message_for_retry (st : MQTTClientState) (topic payload_str : String)
    (qos : Nat) (now : Rat) : Nat × MQTTClientState :=
  let mid := st.message_id_counter + 1
  let pm : PendingMessage :=
    { message_id := mid, topic := topic, payload := payload_str, qos := qos,
      timestamp := now, retry_count := 0 }
  let pending := upsert mid pm st.pending_messages
  (mid,
   { st with
     message_id_counter := mid,
     pending_messages := pending,
     stats := { st.stats with
                total_published := st.stats.total_published + 1,
                pending_messages := pending.length } })

/-- `MQTTClient.publish` (mqtt_client.py lines 276-330). `payload_str` stands
for `json.dumps(payload)`. Not connected: queue when `retry`, else raise the
transport-unavailable error. Connected: on `MQTT_ERR_SUCCESS` bump the counter
and (for QoS > 0) track the message and the statistics; on a failed return
code bump `total_failed`, then queue when `retry`, else raise. The state is
returned in every branch because the failed-publish raise happens after the
`total_failed` increment. -/
def publish (st : MQTTClientState) (topic payload_str : String)
    (qos : Option Nat) (retry : Bool) (env : PublishEnv) :
    Except PubError Nat × MQTTClientState :=
  if st.connected = false then
    if retry then
      let (mid, st1) := queue_message_for_retry st topic payload_str (effQos qos) env.now
      (Except.ok mid, st1)
    else (Except.error PubError.notConnected, st)
  else
    let q := effQos qos
    if env.rc_success then
      let mid := env.broker_mid
      let st1 := { st with message_id_counter := st.message_id_counter + 1 }
      if q > 0 then
        let pm : PendingMessage :=
          { message_id := mid, topic := topic, payload := payload_str,
            qos := q, timestamp := env.now }
        let pending := upsert mid pm st1.pending_messages
        (Except.ok mid,
         { st1 with
           pending_messages := pending,
           stats := { st1.stats with
                      total_published := st1.stats.total_published + 1,
                      pending_messages := pending.length } })
      else (Except.ok mid, st1)
    else
      let st1 := { st with
                   stats := { st.stats with total_failed := st.stats.total_failed + 1 } }
      if retry then
        let (mid, st2) := queue_message_for_retry st1 topic payload_str q env.now
        (Except.ok mid, st2)
      else (Except.error (PubError.publishFailed 1), st1)

/-- `MQTTClient._on_publish` (mqtt_client.py lines 158-168): the acknowledgment
callback pops a tracked mid, bumps `total_acknowledged`, and refreshes the
pending count; an untracked mid is ignored. -/
def on_publish (st : MQTTClientState) (mid : Nat) : MQTTClientState :=
  match lookupKey mid st.pending_messages with
  | some _ =>
    let pending := eraseKey mid st.pending_messages
    { st with
      pending_messages := pending,
      stats := { st.stats with
                 total_acknowledged := st.stats.total_acknowledged + 1,
                 pending_messages := pending.length } }
  | none => st

/-- One entry of the locked sweep of `_retry_pending_messages`
(mqtt_client.py lines 384-397), folded over a snapshot of the pending map:
an entry older than its `retry_delay` is collected for republish when
`retry_count < max_retries`, and otherwise evicted with `total_failed`
bumped and the pending count refreshed. -/
def sweepStep (now : Rat) (acc : MQTTClientState × PendingMap)
    (entry : Nat × PendingMessage) : MQTTClientState × PendingMap :=
  let (st, toRetry) := acc
  let (mid, msg) := entry
  if now - msg.timestamp > msg.retry_delay then
    if msg.retry_count < msg.max_retries then (st, toRetry ++ [(mid, msg)])
    else
      let pending := eraseKey mid st.pending_messages
      ({ st with
         pending_messages := pending,
         stats := { st.stats with
                    total_failed := st.stats.total_failed + 1,
                    pending_messages := pending.length } }, toRetry)
  else (st, toRetry)

/-- One republish of `_retry_pending_messages` (mqtt_client.py lines 400-417):
`client.publish(msg.topic, msg.payload, msg.qos)` with outcome `rcOf mid`;
if the message is still tracked, its retry count is incremented and its
timestamp reset in both outcome branches, and `total_retried` is bumped only
on success. An exception from the transport (modelled out of scope) would skip
the entry entirely. -/
def retryStep2 (now : Rat) (rcOf : Nat → Bool) (st : MQTTClientState)
    (entry : Nat × PendingMessage) : MQTTClientState :=
  let (mid, _) := entry
  match lookupKey mid st.pending_messages with
  | none => st
  | some cur =>
    let updated := { cur with retry_count := cur.retry_count + 1, timestamp := now }
    let pending := upsert mid updated st.pending_messages
    { st with
      pending_messages := pending,
      stats := if rcOf mid
               then { st.stats with total_retried := st.stats.total_retried + 1 }
               else st.stats }

/-- `MQTTClient._retry_pending_messages` (mqtt_client.py lines 376-419): a
no-op while disconnected; otherwise the locked sweep over a snapshot of the
pending map followed by the republish loop outside the lock. -/
def retry_pending_messages (now : Rat) (rcOf : Nat → Bool)
    (st : MQTTClientState) : MQTTClientState :=
  if st.connected = false then st
  else
    let swept := st.pending_messages.foldl (sweepStep now) (st, [])
    swept.2.foldl (retryStep2 now rcOf) swept.1

/-- The action of one retry cycle on a single tracked message whose
acknowledgment never arrives and whose republishes succeed — the projection of
`_retry_pending_messages` (lines 385-411) onto one entry: elapsed and below
the retry cap, the message is republished with its retry count incremented and
timestamp reset; elapsed at the cap, it is evicted; not yet elapsed, it is
untouched. -/
def retryOne (now : Rat) (m : PendingMessage) : Option PendingMessage :=
  if now - m.timestamp > m.retry_delay then
    if m.retry_count < m.max_retries then
      some { m with retry_count := m.retry_count + 1, timestamp := now }
    else none
  else some m

/-- What one unacknowledged message went through across a sequence of retry
cycles: its republishes as (cycle time, republished payload) pairs, the
number of permanent-failure events, and the message if still tracked. -/
structure RetryTrace where
  pubs : List (Rat × String)
  fails : Nat
  remaining : Option PendingMessage

/-- The trajectory of one unacknowledged message across successive retry-cycle
times, following `retryOne` — hence `_retry_pending_messages` — at each time:
an elapsed cycle below the cap republishes `m.payload` and continues with the
retry count incremented and the timestamp reset; an elapsed cycle at the cap
records the single permanent failure and stops tracking. -/
def runRetries : List Rat → PendingMessage → RetryTrace
  | [], m => ⟨[], 0, some m⟩
  | t :: ts, m =>
    if t - m.timestamp > m.retry_delay then
      if m.retry_count < m.max_retries then
        let res := runRetries ts { m with retry_count := m.retry_count + 1, timestamp := t }
        ⟨(t, m.payload) :: res.pubs, res.fails, res.remaining⟩
      else ⟨[], 1, none⟩
    else runRetries ts m

/-- `gapsChainB t0 d [t1, t2, ...]` holds when `t1 > t0 + d`, `t2 > t1 + d`,
and so on: consecutive instants separated by strictly more than `d`. -/
def gapsChainB (t0 d : Rat) : List Rat → Bool
  | [] => true
  | t :: ts => decide (t0 + d < t) && gapsChainB t d ts

/-! ## Fusion scorer — `ml_models/fall_detector.py`

One room-sensor reading is the nested record the scorer consults:
`reading["sensors"]["pir"]["motion_detected"]`,
`reading["sensors"]["ultrasonic"]["distance_cm"]`,
`reading["sensors"]["dht22"]["temperature_c" / "humidity_percent"]`, plus the
top-level `timestamp`, `location` and `device_id`. An outer `none` models an
absent section, an inner `none` an absent field (the source applies a
different `.get` default at each consumer). -/

/-- The `"pir"` section of a reading's `"sensors"` record. -/
structure PirSection where
  motion_detected : Option Bool := none
  deriving Repr, DecidableEq

/-- The `"ultrasonic"` section of a reading's `"sensors"` record. -/
structure UltrasonicSection where
  distance_cm : Option Rat := none
  deriving Repr, DecidableEq

/-- The `"dht22"` section of a reading's `"sensors"` record. -/
structure DhtSection where
  temperature_c : Option Rat := none
  humidity_percent : Option Rat := none
  deriving Repr, DecidableEq

/-- One element of `room_sensor_data` as read by `FallDetector`. -/
structure RoomReading where
  pir : Option PirSection := none
  ultrasonic : Option UltrasonicSection := none
  dht22 : Option DhtSection := none
  timestamp : Option Int := none
  location : Option String := none
  device_id : Option String := none
  deriving Repr, DecidableEq, Inhabited

/-- `FallDetector.__init__` (fall_detector.py lines 22-29): the configured
fusion weights (`room_verification`, `duration`, `environmental`) and the
model flag. -/
structure FallDetector where
  model_loaded : Bool := false
  w_room_verification : Rat := 0.5
  w_duration : Rat := 0.3
  w_environmental : Rat := 0.2
  deriving Repr, DecidableEq

/-- The default-constructed detector, `FallDetector()`. -/
def fallDetectorInit : FallDetector := {}

/-- Loop body of `_calculate_room_verification_score` (fall_detector.py lines
100-114): a pir section adds 3.0 when motion (default `True`) is absent and
counts one factor; an ultrasonic section adds 3.0 below 50 cm or 1.5 below
100 cm (distance default 400) and counts one factor. -/
def roomVerificationStep (acc : Rat × Nat) (r : RoomReading) : Rat × Nat :=
  let acc1 :=
    match r.pir with
    | some p =>
      ((if (p.motion_detected.getD true) = false then acc.1 + 3 else acc.1), acc.2 + 1)
    | none => acc
  match r.ultrasonic with
  | some u =>
    let d := u.distance_cm.getD 400
    ((if d < 50 then acc1.1 + 3 else if d < 100 then acc1.1 + 1.5 else acc1.1), acc1.2 + 1)
  | none => acc1

/-- `FallDetector._calculate_room_verification_score` (fall_detector.py lines
91-118). The method reads no instance state. -/
def calculate_room_verification_score (room_data : List RoomReading) : Rat :=
  if room_data = [] then 0
  else
    let sf := room_data.foldl roomVerificationStep (0, 0)
    if sf.2 > 0 then min 10 (sf.1 / (sf.2 : Rat) * 3.33) else 0

/-- Stable insert for a descending sort by `timestamp` (default 0), matching
Python `sorted(room_data, key=..., reverse=True)`. -/
def insertByTsDesc (r : RoomReading) : List RoomReading → List RoomReading
  | [] => [r]
  | x :: xs =>
    if r.timestamp.getD 0 < x.timestamp.getD 0 then x :: insertByTsDesc r xs
    else r :: x :: xs

/-- `sorted(room_data, key=lambda x: x.get("timestamp", 0), reverse=True)`
(fall_detector.py line 129): a stable descending sort on a copy. -/
def sortByTsDesc (l : List RoomReading) : List RoomReading :=
  l.foldr insertByTsDesc []

/-- Loop of `_calculate_duration_score` (fall_detector.py lines 129-134): walk
the readings newest-first, add 2 seconds per pir reading without motion
(default `False` here), and stop at the first pir reading with motion. -/
def durationLoop : List RoomReading → Nat → Nat
  | [], acc => acc
  | r :: rest, acc =>
    match r.pir with
    | some p =>
      if p.motion_detected.getD false then acc else durationLoop rest (acc + 2)
    | none => durationLoop rest acc

/-- `FallDetector._calculate_duration_score` (fall_detector.py lines 120-144). -/
def calculate_duration_score (room_data : List RoomReading) : Rat :=
  if room_data = [] then 0
  else
    let inactive := durationLoop (sortByTsDesc room_data) 0
    if inactive ≥ 30 then 10
    else if inactive ≥ 20 then 7
    else if inactive ≥ 10 then 4
    else 2

/-- `FallDetector._calculate_environmental_score` (fall_detector.py lines
146-176): absolute temperature and humidity change between the first and the
last reading (field defaults 0), scored 3.0 past 2.0 degrees and 2.0 past
5.0 percent, capped at 10. -/
def calculate_environmental_score (room_data : List RoomReading) : Rat :=
  if room_data.length < 2 then 0
  else
    let recent := room_data.headD default
    let older := room_data.getLastD default
    let changes : Rat × Rat :=
      match recent.dht22 with
      | some rd =>
        match older.dht22 with
        | some od =>
          (abs (rd.temperature_c.getD 0 - od.temperature_c.getD 0),
           abs (rd.humidity_percent.getD 0 - od.humidity_percent.getD 0))
        | none => (0, 0)
      | none => (0, 0)
    let score := (if changes.1 > 2 then (3 : Rat) else 0) +
                 (if changes.2 > 5 then (2 : Rat) else 0)
    min 10 score

/-- Loop body of `_verify_with_room_sensors` (fall_detector.py lines 185-195):
count one factor occurrence per reading reporting no motion (default `True`)
and one per reading reporting a distance (default 400) below 50 cm. -/
def verifyStep (acc : Nat) (r : RoomReading) : Nat :=
  let acc1 :=
    match r.pir with
    | some p => if (p.motion_detected.getD true) = false then acc + 1 else acc
    | none => acc
  match r.ultrasonic with
  | some u => if u.distance_cm.getD 400 < 50 then acc1 + 1 else acc1
  | none => acc1

/-- The `verification_factors` total accumulated across the window. -/
def verification_factors (room_data : List RoomReading) : Nat :=
  room_data.foldl verifyStep 0

/-- `FallDetector._verify_with_room_sensors` (fall_detector.py lines 178-198):
false on an empty window, and otherwise true when at least 2 factor
occurrences were counted. -/
def verify_with_room_sensors (room_data : List RoomReading) : Bool :=
  if room_data = [] then false
  else decide (2 ≤ verification_factors room_data)

/-- `FallDetector._determine_location` (fall_detector.py lines 200-207):
location of the first reading, falling back to its device id, falling back to
"unknown". -/
def determine_location (room_data : List RoomReading) : String :=
  match room_data with
  | [] => "unknown"
  | latest :: _ =>
    match latest.location with
    | some s => s
    | none => latest.device_id.getD "unknown"

/-- `round(x, 2)` on the exact rational severity. Python rounds the nearest
binary float half-to-even; the claims under verification do not depend on the
tie behaviour, and away from exact half-hundredths the two agree. -/
def roundTo2 (x : Rat) : Rat := ((round (x * 100) : Int) : Rat) / 100

/-- The dictionary `FallDetector.detect_fall` returns (fall_detector.py lines
77-87): detection flag, rounded severity, verification flag, location, and the
three component scores. -/
structure IncidentScore where
  fall_detected : Bool
  severity_score : Rat
  verified : Bool
  location : String
  room_verification : Rat
  duration : Rat
  environmental : Rat
  deriving Repr, DecidableEq

/-- `FallDetector.detect_fall` (fall_detector.py lines 38-87): the three
component scores, the weighted severity, the threshold test at 6.0 (on the
unrounded severity), verification, and location. -/
def detect_fall (d : FallDetector) (room_sensor_data : List RoomReading) :
    IncidentScore :=
  let room_score := calculate_room_verification_score room_sensor_data
  let duration_score := calculate_duration_score room_sensor_data
  let env_score := calculate_environmental_score room_sensor_data
  let severity := room_score * d.w_room_verification +
                  duration_score * d.w_duration +
                  env_score * d.w_environmental
  { fall_detected := decide (severity ≥ 6),
    severity_score := roundTo2 severity,
    verified := verify_with_room_sensors room_sensor_data,
    location := determine_location room_sensor_data,
    room_verification := room_score,
    duration := duration_score,
    environmental := env_score }

/-- `detect_fall` with the detector state threaded explicitly: the method
assigns no instance attribute and mutates no argument (its only list
operation, `sorted`, copies), so the post-state is the pre-state. -/
def detect_fall_st (d : FallDetector) (room_sensor_data : List RoomReading) :
    IncidentScore × FallDetector :=
  (detect_fall d room_sensor_data, d)

/-! ## Trend evaluator — `alerts/alert_engine.py`, `_check_fluctuations` -/

/-- The fields of one entry of `recent_readings` that `_check_fluctuations`
consults: `r.get("sensor_type")`, `r.get("timestamp", 0)` and the
`temperature_c` / `humidity_percent` fields of `r.get("data", {})` (a `none`
models an absent or `None` field). -/
structure RecentReading where
  sensor_type : Option String := none
  timestamp : Option Int := none
  temperature_c : Option Rat := none
  humidity_percent : Option Rat := none
  deriving Repr, DecidableEq, BEq

/-- The `AlertEngine.__init__` configuration fields that `_check_fluctuations`
reads (alert_engine.py lines 59-64): fluctuation thresholds and the trend
window in minutes. -/
structure AlertEngineConfig where
  temp_fluctuation_threshold : Rat := 3
  humidity_fluctuation_threshold : Rat := 10
  trend_window_minutes : Int := 5
  deriving Repr, DecidableEq

/-- One alert dictionary emitted by `_check_fluctuations` (alert_engine.py
lines 413-426 and 434-447): type, severity tier, and the observed range
carried in `sensor_values` (`temperature_range` respectively
`humidity_range`); the human-readable message and the wall-clock
`triggered_at` stamp are not modelled. -/
structure EngineAlert where
  device_id : String
  alert_type : String
  severity : String
  temperature_range : Option Rat := none
  humidity_range : Option Rat := none
  deriving Repr, DecidableEq

/-- Python `max` of a nonempty list of floats (the lists below always carry
the current value, so the empty case is unreachable). -/
def listMaxR : List Rat → Rat
  | [] => 0
  | [a] => a
  | a :: b :: rest => max a (listMaxR (b :: rest))

/-- Python `min` of a nonempty list of floats. -/
def listMinR : List Rat → Rat
  | [] => 0
  | [a] => a
  | a :: b :: rest => min a (listMinR (b :: rest))

/-- The window filter of `_check_fluctuations` (alert_engine.py lines
396-402): dht22 readings stamped at or after the trailing cutoff that carry
both a temperature and a humidity. -/
def windowDht22 (cfg : AlertEngineConfig) (timestamp : Int)
    (rs : List RecentReading) : List RecentReading :=
  let window_start := timestamp - cfg.trend_window_minutes * 60
  rs.filter (fun r =>
    r.sensor_type == some "dht22" &&
    decide (window_start ≤ r.timestamp.getD 0) &&
    r.temperature_c.isSome && r.humidity_percent.isSome)

/-- `AlertEngine._check_fluctuations` (alert_engine.py lines 380-449): a
silent no-op without at least 2 recent readings and at least 2 dht22 readings
in the trailing window; otherwise the current value is appended to the window
values of each quantity and an alert is emitted per quantity whose max minus
min reaches the configured threshold (severity high for temperature, medium
for humidity). -/
def check_fluctuations (cfg : AlertEngineConfig) (device_id : String)
    (temperature humidity : Rat) (timestamp : Int)
    (recent_readings : Option (List RecentReading)) : List EngineAlert :=
  match recent_readings with
  | none => []
  | some rs =>
    if rs.length < 2 then []
    else
      let recent_dht22 := windowDht22 cfg timestamp rs
      if recent_dht22.length < 2 then []
      else
        let temps := (recent_dht22.map (fun r => r.temperature_c.getD 0)) ++ [temperature]
        let temp_range := listMaxR temps - listMinR temps
        let tempAlerts : List EngineAlert :=
          if temp_range ≥ cfg.temp_fluctuation_threshold then
            [{ device_id := device_id, alert_type := "rapid_fluctuation",
               severity := "high", temperature_range := some temp_range }]
          else []
        let hums := (recent_dht22.map (fun r => r.humidity_percent.getD 0)) ++ [humidity]
        let humidity_range := listMaxR hums - listMinR hums
        let humAlerts : List EngineAlert :=
          if humidity_range ≥ cfg.humidity_fluctuation_threshold then
            [{ device_id := device_id, alert_type := "rapid_fluctuation",
               severity := "medium", humidity_range := some humidity_range }]
          else []
        tempAlerts ++ humAlerts

/-! ## Anomaly overlay — `ml_models/ml_alert_predictor.py`

The model-inference outcome is abstracted to the classifier's `prediction`
label and optional confidence `probability` (the `max` of `predict_proba`,
`None` for a model without probabilities); the alert-construction logic
downstream of inference is embedded exactly. -/

/-- One model-based alert dictionary of `MLAlertPredictor` (message text not
modelled). -/
structure MLAlert where
  alert_type : String
  severity : String
  ml_confidence : Option Rat
  ml_prediction : Int
  ml_based : Bool
  deriving Repr, DecidableEq, Inhabited

/-- Python truthiness of the optional `probability` float: `None` and `0.0`
are falsy. -/
def probTruthy : Option Rat → Bool
  | none => false
  | some q => decide (q ≠ 0)

/-- `MLAlertPredictor._determine_severity_from_probability`
(ml_alert_predictor.py lines 408-431): the confidence bands
(over 0.9 extreme, over 0.75 high, over 0.6 medium, else low), with a
temperature-based fallback when no probability is available. -/
def determine_severity_from_probability (probability : Option Rat)
    (temperature : Rat) : String :=
  match probability with
  | none =>
    if temperature > 35 then "extreme"
    else if temperature > 30 then "high"
    else "medium"
  | some p =>
    if p > 0.9 then "extreme"
    else if p > 0.75 then "high"
    else if p > 0.6 then "medium"
    else "low"

/-- The detection-and-severity logic of `MLAlertPredictor.predict_fire_risk`
after inference (ml_alert_predictor.py lines 157-181): a fire-risk alert is
emitted when the prediction label is 1 or the confidence is truthy and above
0.6, with severity extreme when the confidence is truthy and above 0.8 and
high otherwise. (With a `None` confidence the source's message f-string would
itself raise, diverting to the rule-based fallback; the claims are stated for
present confidences.) -/
def fire_risk_alert (prediction : Int) (probability : Option Rat) :
    Option MLAlert :=
  let is_fire_risk := prediction == 1 ||
    (probTruthy probability && decide (probability.getD 0 > 0.6))
  if is_fire_risk then
    some { alert_type := "fire_risk",
           severity := if probTruthy probability && decide (probability.getD 0 > 0.8)
                       then "extreme" else "high",
           ml_confidence := probability, ml_prediction := prediction,
           ml_based := true }
  else none

/-- The detection-and-severity logic of
`MLAlertPredictor.predict_temperature_anomaly` after inference
(ml_alert_predictor.py lines 92-108): anomalous when the label is 1 or the
confidence is truthy and above 0.7; severity from the confidence bands. -/
def temperature_anomaly_alert (prediction : Int) (probability : Option Rat)
    (temperature : Rat) : Option MLAlert :=
  let is_anomaly := prediction == 1 ||
    (probTruthy probability && decide (probability.getD 0 > 0.7))
  if is_anomaly then
    some { alert_type := "unsafe_temperature",
           severity := determine_severity_from_probability probability temperature,
           ml_confidence := probability, ml_prediction := prediction,
           ml_based := true }
  else none

/-- The detection-and-severity logic of
`MLAlertPredictor.predict_motion_anomaly` after inference
(ml_alert_predictor.py lines 233-247): anomalous when the label is 1 or the
confidence is truthy and above 0.7; severity is the constant "medium". -/
def motion_anomaly_alert (prediction : Int) (probability : Option Rat) :
    Option MLAlert :=
  let is_anomaly := prediction == 1 ||
    (probTruthy probability && decide (probability.getD 0 > 0.7))
  if is_anomaly then
    some { alert_type := "motion_anomaly", severity := "medium",
           ml_confidence := probability, ml_prediction := prediction,
           ml_based := true }
  else none

/-! ## Ingestion normalizer — `api/main.py` `handle_mqtt_message`

JSON-decoded Python values are modelled by `JVal`; the inbound payload shapes
the pipeline distinguishes (key-value record, bare scalar, malformed
non-record text) by `PayloadShape`. `mqtt_client._on_message` (lines 201-223)
coerces every inbound payload to a record and stamps `topic` and
`received_at` before invoking the handler. -/

/-- A decoded JSON/Python value as the handler sees it. -/
inductive JVal where
  | s (v : String)
  | i (v : Int)
  | f (v : Rat)
  | b (v : Bool)
  | null
  | obj (fields : List (String × JVal))
  | arr (items : List JVal)

/-- The inbound payload shapes: a JSON record, a bare scalar (JSON number,
string, boolean or null), or raw non-JSON text (which
`mqtt_client._on_message` lines 202-206 already wraps as
`{"value": text, "raw": text}`, so it reaches the handler exactly like a bare
string scalar). -/
inductive PayloadShape where
  | record (fields : List (String × JVal))
  | scalarInt (v : Int)
  | scalarFloat (v : Rat)
  | scalarStr (v : String)
  | scalarBool (v : Bool)
  | scalarNull
  | malformed (text : String)

/-- Python truthiness of a `JVal` (empty string, zero, `False`, `None` and
empty containers are falsy). -/
def jTruthy : JVal → Bool
  | .s v => decide (v ≠ "")
  | .i v => decide (v ≠ 0)
  | .f v => decide (v ≠ 0)
  | .b v => v
  | .null => false
  | .obj fs => !fs.isEmpty
  | .arr xs => !xs.isEmpty

/-- `a or b` on payload fields: the first operand when truthy, else the
second as-is. -/
def pyOr (a b : JVal) : JVal := if jTruthy a then a else b

/-- First-match lookup in a record, as `dict` lookup on unique keys. -/
def jLookup (k : String) : List (String × JVal) → Option JVal
  | [] => none
  | (a, v) :: rest => if a = k then some v else jLookup k rest

/-- `payload.get(k)`: the value, or `None` for a missing key. -/
def jGet (fields : List (String × JVal)) (k : String) : JVal :=
  (jLookup k fields).getD .null

/-- `k in payload`. -/
def jHas (fields : List (String × JVal)) (k : String) : Bool :=
  (jLookup k fields).isSome

/-- `payload[k] = v`: replace in place, or append a fresh key. -/
def jUpsert (k : String) (v : JVal) (l : List (String × JVal)) :
    List (String × JVal) :=
  if jHas l k then l.map (fun p => if p.1 = k then (k, v) else p)
  else l ++ [(k, v)]

/-- Digits-only string to its numeric value (`none` when empty or not all
digits). -/
def decDigits (str : String) : Option Nat :=
  if str.length > 0 && str.all Char.isDigit then
    some (str.foldl (fun a c => a * 10 + (c.toNat - 48)) 0)
  else none

/-- Python `float(s)` on plain decimal notation: optional sign, an integer
part and an optional fractional part. (The source accepts further forms —
exponents, `inf`, `nan`, surrounding whitespace — that no claim exercises.) -/
def pyFloatOfString (str : String) : Option Rat :=
  let sb : Rat × String :=
    if str.startsWith "-" then (-1, str.drop 1)
    else if str.startsWith "+" then (1, str.drop 1) else (1, str)
  match sb.2.splitOn "." with
  | [ip] => (decDigits ip).map (fun n => sb.1 * n)
  | [ip, fp] =>
    if ip = "" && fp = "" then none
    else
      let ipn := if ip = "" then some 0 else decDigits ip
      let fpn := if fp = "" then some 0 else decDigits fp
      match ipn, fpn with
      | some a, some b => some (sb.1 * ((a : Rat) + (b : Rat) / ((10 : Rat) ^ fp.length)))
      | _, _ => none
  | _ => none

/-- Python `int()` truncation toward zero of a float. -/
def pyTrunc (x : Rat) : Int := if 0 ≤ x then ⌊x⌋ else ⌈x⌉

/-- `float(v)` under the `try/except` of main.py lines 197-201: numbers and
booleans convert, parsable strings parse, and everything else falls to the
handler's 0.0 default. -/
def pyFloatCoerce : JVal → Rat
  | .i n => (n : Rat)
  | .f q => q
  | .b bv => if bv then 1 else 0
  | .s u => (pyFloatOfString u).getD 0
  | _ => 0

/-- `payload.get("value") == "1" or payload.get("value") == 1` (main.py line
195): Python equality puts `1`, `1.0` and `True` all equal to `1`. -/
def valueIsOne : JVal → Bool
  | .s u => decide (u = "1")
  | .i n => decide (n = 1)
  | .f q => decide (q = 1)
  | .b bv => bv
  | _ => false

/-- The not-a-dict coercion shared by `mqtt_client._on_message` (lines
208-219) and `handle_mqtt_message` (main.py lines 131-141): numbers, strings
and booleans (Python `bool` is an `int`) become `{"value": v, "raw": v}`;
`None` fails `dict()` and becomes `{"value": str(v), "raw": v}`; malformed
text was already wrapped as `{"value": text, "raw": text}` by the JSON-decode
fallback. -/
def coerceToRecord : PayloadShape → List (String × JVal)
  | .record fs => fs
  | .scalarInt v => [("value", .i v), ("raw", .i v)]
  | .scalarFloat v => [("value", .f v), ("raw", .f v)]
  | .scalarStr v => [("value", .s v), ("raw", .s v)]
  | .scalarBool v => [("value", .b v), ("raw", .b v)]
  | .scalarNull => [("value", .s "None"), ("raw", .null)]
  | .malformed text => [("value", .s text), ("raw", .s text)]

/-- Worker for `pySplitSlash`, walking the characters with the current
segment accumulated in reverse. -/
def splitSlashAux : List Char → List Char → List String
  | [], acc => [String.mk acc.reverse]
  | c :: rest, acc =>
    if c = '/' then String.mk acc.reverse :: splitSlashAux rest []
    else splitSlashAux rest (c :: acc)

/-- Python `topic.split("/")` (main.py line 144): segments between slashes,
with the empty string for empty segments (so the empty topic yields one empty
segment, as in Python). -/
def pySplitSlash (s : String) : List String := splitSlashAux s.data []

/-- Python `v == text` between a payload field and a string literal: true
exactly for an equal string. -/
def jIsStr (v : JVal) (text : String) : Bool :=
  match v with
  | .s u => decide (u = text)
  | _ => false

/-- The metadata field names stripped from the value bag (main.py lines
183-185). -/
def metadataFields : List String :=
  ["device_id", "deviceId", "sensor_type", "sensorType",
   "timestamp", "time", "Timestamp", "location", "Location",
   "topic", "received_at", "receivedAt"]

/-- The canonical reading record `handle_mqtt_message` builds for storage
(main.py lines 214-221). -/
structure Reading where
  device_id : JVal
  sensor_type : JVal
  timestamp : JVal
  data : List (String × JVal)
  location : JVal
  topic : String

/-- The normalization performed by `handle_mqtt_message` (main.py lines
126-221) on a payload already coerced and stamped by `_on_message`:
device id from explicit fields, else the third topic segment, else "unknown";
sensor kind from explicit fields, else the second topic segment, else
"unknown"; timestamp from explicit fields (floats truncated, strings parsed
with the current epoch `nowEpoch` as fallback), else `nowEpoch`; the value bag
from the non-metadata fields, with the kind-specific single-value fallback
when the bag is empty or the payload was a wrapped scalar. -/
def normalizeRecord (topic : String) (p : List (String × JVal))
    (nowEpoch : Int) : Reading :=
  let parts := pySplitSlash topic
  let d0 := pyOr (jGet p "device_id") (jGet p "deviceId")
  let d1 := if jTruthy d0 = false && decide (3 ≤ parts.length) then
              JVal.s (parts.getD 2 "") else d0
  let device_id := if jTruthy d1 then d1 else JVal.s "unknown"
  let s0 := pyOr (jGet p "sensor_type") (jGet p "sensorType")
  let sensor_type :=
    if jTruthy s0 then s0
    else if 2 ≤ parts.length then JVal.s (parts.getD 1 "")
    else JVal.s "unknown"
  let location := pyOr (jGet p "location") (jGet p "Location")
  let t0 := pyOr (pyOr (jGet p "timestamp") (jGet p "time")) (jGet p "Timestamp")
  let timestamp : JVal :=
    if jTruthy t0 then
      match t0 with
      | .f v => .i (pyTrunc v)
      | .s v =>
        match pyFloatOfString v with
        | some q => .i (pyTrunc q)
        | none => .i nowEpoch
      | other => other
    else .i nowEpoch
  let sensor_data0 := p.filter (fun kv => !(metadataFields.contains kv.1))
  let sensor_data :=
    if sensor_data0.isEmpty || (decide (sensor_data0.length ≤ 2) && jHas p "value") then
      if jHas p "value" then
        if jIsStr sensor_type "pir" then
          [("motion_detected", JVal.b (valueIsOne (jGet p "value")))]
        else if jIsStr sensor_type "ultrasonic" then
          [("distance_cm", JVal.f (pyFloatCoerce (jGet p "value")))]
        else [("value", jGet p "value")]
      else sensor_data0
    else sensor_data0
  { device_id := device_id, sensor_type := sensor_type, timestamp := timestamp,
    data := sensor_data, location := location, topic := topic }

/-- The full ingestion normalization of one inbound message: the `_on_message`
record coercion and `topic` / `received_at` stamping (mqtt_client.py lines
201-223) followed by the handler's extraction. `nowEpoch` models
`int(datetime.utcnow().timestamp())`, `nowTime` models `time.time()`. -/
def normalize (topic : String) (p : PayloadShape) (nowEpoch : Int)
    (nowTime : Rat) : Reading :=
  let stamped := jUpsert "received_at" (.f nowTime)
                   (jUpsert "topic" (.s topic) (coerceToRecord p))
  normalizeRecord topic stamped nowEpoch

/-- `handle_mqtt_message` as the caller observes it: every raise point inside
the normalization is individually guarded with a default in the source, and
the handler's outer `try/except` (main.py lines 264-273) logs without
re-raising, so the coroutine always completes having built the normalized
reading. -/
def handle_mqtt_message (topic : String) (p : PayloadShape) (nowEpoch : Int)
    (nowTime : Rat) : Except String Reading :=
  Except.ok (normalize topic p nowEpoch nowTime)

/-! ## Supporting definitions for the theorems -/

/-- The corroboration rule as the spec words it: the motion-absence factor and
the proximity-to-ground factor are each true somewhere across the window —
two *independent* factors simultaneously true. Stated from the spec for
comparison against `verify_with_room_sensors`, which counts factor
occurrences instead. -/
def specCorroboration (room_data : List RoomReading) : Bool :=
  (room_data.any fun r =>
    match r.pir with
    | some p => decide ((p.motion_detected.getD true) = false)
    | none => false) &&
  (room_data.any fun r =>
    match r.ultrasonic with
    | some u => decide (u.distance_cm.getD 400 < 50)
    | none => false)

/-- A reading whose PIR section reports no motion and which carries no
ultrasonic section at all. -/
def pirQuietReading : RoomReading :=
  { pir := some { motion_detected := some false } }

/-- The pending-count bookkeeping invariant of the delivery tracker: the
exposed `pending_messages` statistic equals the number of tracked messages. -/
def TrackInv (st : MQTTClientState) : Prop :=
  st.stats.pending_messages = st.pending_messages.length

/-- A freshly queued pending message for the retry-lifecycle witness:
timestamp 0, defaults `retry_count = 0`, `max_retries = 3`,
`retry_delay = 2`. -/
def pm0 : PendingMessage :=
  { message_id := 1, topic := "t", payload := "p", qos := 1, timestamp := 0 }

/-- The two in-window dht22 readings of the fluctuation scenario: same-quantity
temperatures 20 and 20.5 with steady humidity. -/
def fluctReadings : List RecentReading :=
  [{ sensor_type := some "dht22", timestamp := some 300,
     temperature_c := some 20, humidity_percent := some 50 },
   { sensor_type := some "dht22", timestamp := some 300,
     temperature_c := some 20.5, humidity_percent := some 50 }]

/-! ## Association-list lemmas -/

theorem containsKey_of_lookup {k : Nat} {v : PendingMessage} :
    ∀ {l : PendingMap}, lookupKey k l = some v → containsKey k l = true := by
  intro l
  induction l with
  | nil => intro h; simp [lookupKey] at h
  | cons hd tl ih =>
    obtain ⟨a, w⟩ := hd
    intro h
    by_cases hk : a = k
    · simp [containsKey, hk]
    · simp only [lookupKey, if_neg hk] at h
      simp only [containsKey, if_neg hk]
      exact ih h

theorem lookupKey_replace (k : Nat) (v : PendingMessage) :
    ∀ l : PendingMap, containsKey k l = true →
      lookupKey k (l.map (fun p => if p.1 = k then (k, v) else p)) = some v := by
  intro l
  induction l with
  | nil => intro h; simp [containsKey] at h
  | cons hd tl ih =>
    obtain ⟨a, w⟩ := hd
    intro h
    by_cases hk : a = k
    · simp only [List.map_cons]
      rw [show (if (a, w).1 = k then (k, v) else (a, w)) = (k, v) from if_pos hk]
      simp [lookupKey]
    · simp only [containsKey, if_neg hk] at h
      simp only [List.map_cons]
      rw [show (if (a, w).1 = k then (k, v) else (a, w)) = (a, w) from if_neg hk]
      simp only [lookupKey, if_neg hk]
      exact ih h

theorem lookupKey_append_fresh (k : Nat) (v : PendingMessage) :
    ∀ l : PendingMap, containsKey k l = false →
      lookupKey k (l ++ [(k, v)]) = some v := by
  intro l
  induction l with
  | nil => intro _; simp [lookupKey]
  | cons hd tl ih =>
    obtain ⟨a, w⟩ := hd
    intro h
    by_cases hk : a = k
    · simp [containsKey, hk] at h
    · simp only [containsKey, if_neg hk] at h
      simp only [List.cons_append, lookupKey, if_neg hk]
      exact ih h

theorem lookupKey_upsert (k : Nat) (v : PendingMessage) (l : PendingMap) :
    lookupKey k (upsert k v l) = some v := by
  by_cases h : containsKey k l = true
  · simp [upsert, h, lookupKey_replace k v l h]
  · simp only [Bool.not_eq_true] at h
    simp [upsert, h, lookupKey_append_fresh k v l h]

theorem upsert_length_of_contains {k : Nat} {v : PendingMessage}
    {l : PendingMap} (h : containsKey k l = true) :
    (upsert k v l).length = l.length := by
  simp [upsert, h]

/-! ## Claim theorems -/

/-- C9: with no message ever published, the delivery tracker's derived
reliability ratio is reported as 100.0 percent. -/
theorem claim9_reliability_without_publishes (s : MessageStats)
    (h : s.total_published = 0) : s.get_reliability = 100 := by
  simp [MessageStats.get_reliability, h]

/-- Witness for C9 at the freshly initialized statistics record. -/
theorem claim9_reliability_without_publishes_witness :
    ({} : MessageStats).get_reliability = 100 :=
  claim9_reliability_without_publishes {} rfl

/-- C8: scoring an unchanged reading window twice yields identical
IncidentScore results field for field, and the evaluation leaves the
detector state consulted by later evaluations unchanged. -/
theorem claim8_score_incident_idempotent :
    ∀ (d : FallDetector) (w : List RoomReading),
      (detect_fall_st d w).1 = (detect_fall_st (detect_fall_st d w).2 w).1 ∧
      (detect_fall_st d w).2 = d ∧
      (detect_fall_st (detect_fall_st d w).2 w).2 = d :=
  fun _ _ => ⟨rfl, rfl, rfl⟩

/-- C6 counterexample: a window of two readings from the PIR alone, both
reporting no motion and carrying no ultrasonic data, sets the verification
flag although the proximity-to-ground factor is never true — a single noisy
sensor can set the flag, contrary to the claim. -/
theorem claim6_counterexample :
    verify_with_room_sensors [pirQuietReading, pirQuietReading] = true ∧
    specCorroboration [pirQuietReading, pirQuietReading] = false := by
  constructor <;> rfl

/-- C6 amended: the verification flag is true exactly when at least two
factor *occurrences* are counted across the window — one per reading
reporting no motion plus one per reading reporting a distance below 50 cm —
so repeated occurrences of the same factor suffice. -/
theorem claim6_factor_occurrence_count :
    ∀ room_data : List RoomReading,
      verify_with_room_sensors room_data =
        decide (2 ≤ verification_factors room_data) := by
  intro room_data
  cases room_data with
  | nil => rfl
  | cons r rest => rfl

/-- C7 counterexample: a fire-risk model detection with confidence 0.85 is
emitted with severity "extreme", while the fixed bands of
`_determine_severity_from_probability` give "high" for 0.85 — so fire-risk
severities are not derived via the bands. -/
theorem claim7_counterexample :
    (fire_risk_alert 1 (some 0.85)).map MLAlert.severity = some "extreme" ∧
    determine_severity_from_probability (some 0.85) 20 = "high" := by
  constructor
  · have ht : probTruthy (some (0.85 : Rat)) = true := by
      simp only [probTruthy, decide_eq_true_eq]; norm_num
    have h8 : decide ((0.85 : Rat) > 0.8) = true := by
      simp only [decide_eq_true_eq]; norm_num
    show some (if probTruthy (some (0.85 : Rat)) && decide ((0.85 : Rat) > 0.8)
               then "extreme" else "high") = some "extreme"
    rw [ht, h8]
    rfl
  · show (if (0.85 : Rat) > 0.9 then "extreme"
          else if (0.85 : Rat) > 0.75 then "high"
          else if (0.85 : Rat) > 0.6 then "medium" else "low") = "high"
    rw [if_neg (by norm_num), if_pos (by norm_num)]

/-- C7 amended: only temperature-anomaly model detections derive severity
from the confidence bands (over 0.9 extreme, over 0.75 high, over 0.6
medium); fire-risk model detections use extreme when confidence exceeds 0.8
and high otherwise, and motion-anomaly model detections use the fixed
severity medium. -/
theorem claim7_severity_rules :
    ∀ (pred : Int) (q t : Rat) (a : MLAlert),
      (temperature_anomaly_alert pred (some q) t = some a →
         a.severity = determine_severity_from_probability (some q) t) ∧
      (fire_risk_alert pred (some q) = some a →
         a.severity = (if q > 0.8 then "extreme" else "high")) ∧
      (motion_anomaly_alert pred (some q) = some a → a.severity = "medium") ∧
      (q > 0.9 → determine_severity_from_probability (some q) t = "extreme") ∧
      (0.75 < q → q ≤ 0.9 →
         determine_severity_from_probability (some q) t = "high") ∧
      (0.6 < q → q ≤ 0.75 →
         determine_severity_from_probability (some q) t = "medium") := by
  intro pred q t a
  have hband : ∀ s : String,
      determine_severity_from_probability (some q) t = s ↔
      (if q > 0.9 then "extreme"
       else if q > 0.75 then "high"
       else if q > 0.6 then "medium" else "low") = s := by
    intro s; rfl
  refine ⟨?_, ?_, ?_, ?_, ?_, ?_⟩
  · intro h
    simp only [temperature_anomaly_alert] at h
    split at h
    · cases h; rfl
    · exact absurd h (by simp)
  · intro h
    simp only [fire_risk_alert] at h
    split at h
    · cases h
      show (if probTruthy (some q) && decide (q > (0.8 : Rat)) then "extreme" else "high") = _
      by_cases h8 : q > 0.8
      · have hq0 : q ≠ 0 := by intro h0; rw [h0] at h8; norm_num at h8
        simp [probTruthy, h8, hq0]
      · simp [h8]
    · exact absurd h (by simp)
  · intro h
    simp only [motion_anomaly_alert] at h
    split at h
    · cases h; rfl
    · exact absurd h (by simp)
  · intro h9
    rw [hband]
    simp [h9]
  · intro h75 h90
    rw [hband]
    rw [if_neg (by simp only [not_lt]; exact h90), if_pos h75]
  · intro h60 h75
    rw [hband]
    rw [if_neg (by simp only [not_lt]; linarith), if_neg (by simp only [not_lt]; exact h75),
        if_pos h60]

/-- Witness for C7 amended: the band severity at confidence 0.95 is
"extreme". -/
theorem claim7_severity_rules_witness :
    determine_severity_from_probability (some 0.95) 20 = "extreme" :=
  (claim7_severity_rules 1 0.95 20 default).2.2.2.1 (by norm_num)

/-- C2: for every topic and every inbound payload shape the ingestion
handler completes without raising, producing the normalized reading; in the
worst case (a record carrying no data fields, under a topic without path
segments) the reading has an empty value bag and sensor kind "unknown". -/
theorem claim2_normalize_total_worst_case :
    (∀ (topic : String) (p : PayloadShape) (ne : Int) (nt : Rat),
       handle_mqtt_message topic p ne nt =
         Except.ok (normalize topic p ne nt)) ∧
    (normalize "x" (.record []) 0 0).data = [] ∧
    (normalize "x" (.record []) 0 0).sensor_type = JVal.s "unknown" :=
  ⟨fun _ _ _ _ => rfl, rfl, rfl⟩

/-- C3: the combined severity is 0.5 times the room-verification score plus
0.3 times the duration score plus 0.2 times the environmental score, the
detected flag is true exactly when that combination reaches 6.0, and on the
empty window all three sub-scores are 0, the combination is exactly 0, and
detected is false. -/
theorem claim3_fusion_weighted_severity :
    (∀ data : List RoomReading,
       (detect_fall fallDetectorInit data).fall_detected =
         decide ((6 : Rat) ≤ 0.5 * calculate_room_verification_score data
                           + 0.3 * calculate_duration_score data
                           + 0.2 * calculate_environmental_score data)) ∧
    (∀ data : List RoomReading,
       (detect_fall fallDetectorInit data).severity_score =
         roundTo2 (0.5 * calculate_room_verification_score data
                 + 0.3 * calculate_duration_score data
                 + 0.2 * calculate_environmental_score data)) ∧
    calculate_room_verification_score [] = 0 ∧
    calculate_duration_score [] = 0 ∧
    calculate_environmental_score [] = 0 ∧
    (0.5 * calculate_room_verification_score []
     + 0.3 * calculate_duration_score []
     + 0.2 * calculate_environmental_score []) = 0 ∧
    (detect_fall fallDetectorInit []).fall_detected = false := by
  have hfield : ∀ data : List RoomReading,
      (detect_fall fallDetectorInit data).fall_detected =
        decide ((6 : Rat) ≤ calculate_room_verification_score data * 0.5
                          + calculate_duration_score data * 0.3
                          + calculate_environmental_score data * 0.2) :=
    fun _ => rfl
  have hsev : ∀ data : List RoomReading,
      (detect_fall fallDetectorInit data).severity_score =
        roundTo2 (calculate_room_verification_score data * 0.5
                + calculate_duration_score data * 0.3
                + calculate_environmental_score data * 0.2) :=
    fun _ => rfl
  have hr0 : calculate_room_verification_score [] = 0 := rfl
  have hd0 : calculate_duration_score [] = 0 := rfl
  have he0 : calculate_environmental_score [] = 0 := rfl
  refine ⟨?_, ?_, hr0, hd0, he0, ?_, ?_⟩
  · intro data
    rw [hfield data, decide_eq_decide]
    constructor <;> intro h <;> linarith
  · intro data
    rw [hsev data]
    congr 1
    ring
  · rw [hr0, hd0, he0]
    norm_num
  · rw [hfield [], hr0, hd0, he0]
    simp only [decide_eq_false_iff_not, not_le]
    norm_num

/-- C5: with the default configuration (temperature fluctuation threshold
3.0, 5-minute window), two in-window dht22 readings at 20 and 20.5 degrees
and a current temperature of 24.0 produce exactly one rapid-fluctuation
alert carrying the observed range 4.0; and whenever fewer than 2 dht22
readings fall in the trailing window (or no recent readings are supplied at
all), no fluctuation alert is emitted. -/
theorem claim5_fluctuation_scenario :
    (check_fluctuations {} "dev" 24 50 300 (some fluctReadings) =
       [{ device_id := "dev", alert_type := "rapid_fluctuation",
          severity := "high", temperature_range := some 4 }]) ∧
    (∀ (cfg : AlertEngineConfig) (d : String) (t h : Rat) (ts : Int)
       (rs : List RecentReading),
       (windowDht22 cfg ts rs).length < 2 →
       check_fluctuations cfg d t h ts (some rs) = []) ∧
    (∀ (cfg : AlertEngineConfig) (d : String) (t h : Rat) (ts : Int),
       check_fluctuations cfg d t h ts none = []) := by
  refine ⟨?_, ?_, fun _ _ _ _ _ => rfl⟩
  · have hwin : windowDht22 {} 300 fluctReadings = fluctReadings := rfl
    have hmax : listMaxR ((fluctReadings.map fun r => r.temperature_c.getD 0) ++ [24]) = 24 := by
      show listMaxR [(20 : Rat), 20.5, 24] = 24
      simp only [listMaxR, max_def]
      norm_num
    have hmin : listMinR ((fluctReadings.map fun r => r.temperature_c.getD 0) ++ [24]) = 20 := by
      show listMinR [(20 : Rat), 20.5, 24] = 20
      simp only [listMinR, min_def]
      norm_num
    have hmaxh : listMaxR ((fluctReadings.map fun r => r.humidity_percent.getD 0) ++ [50]) = 50 := by
      show listMaxR [(50 : Rat), 50, 50] = 50
      simp only [listMaxR, max_def]
      norm_num
    have hminh : listMinR ((fluctReadings.map fun r => r.humidity_percent.getD 0) ++ [50]) = 50 := by
      show listMinR [(50 : Rat), 50, 50] = 50
      simp only [listMinR, min_def]
      norm_num
    have hlen : ¬(fluctReadings.length < 2) := by decide
    simp only [check_fluctuations, hwin, hmax, hmin, hmaxh, hminh, if_neg hlen]
    rw [if_pos (by norm_num : (24 : Rat) - 20 ≥
          ({} : AlertEngineConfig).temp_fluctuation_threshold),
        if_neg (by norm_num : ¬((50 : Rat) - 50 ≥
          ({} : AlertEngineConfig).humidity_fluctuation_threshold))]
    norm_num
  · intro cfg d t h ts rs hlen
    simp only [check_fluctuations]
    by_cases h1 : rs.length < 2
    · rw [if_pos h1]
    · rw [if_neg h1, if_pos hlen]

/-! ## Retry-trajectory lemmas -/

theorem runRetries_pubs_payload :
    ∀ (ts : List Rat) (m : PendingMessage) (pr : Rat × String),
      pr ∈ (runRetries ts m).pubs → pr.2 = m.payload := by
  intro ts
  induction ts with
  | nil => intro m pr h; simp [runRetries] at h
  | cons t ts ih =>
    intro m pr h
    simp only [runRetries] at h
    split_ifs at h with h1 h2
    · have h' : pr = (t, m.payload) ∨
          pr ∈ (runRetries ts
            { m with retry_count := m.retry_count + 1, timestamp := t }).pubs :=
        List.mem_cons.mp h
      rcases h' with h' | h'
      · rw [h']
      · exact ih { m with retry_count := m.retry_count + 1, timestamp := t } pr h'
    · simp at h
    · exact ih m pr h

theorem runRetries_gaps :
    ∀ (ts : List Rat) (m : PendingMessage),
      gapsChainB m.timestamp m.retry_delay
        ((runRetries ts m).pubs.map Prod.fst) = true := by
  intro ts
  induction ts with
  | nil => intro m; rfl
  | cons t ts ih =>
    intro m
    simp only [runRetries]
    split_ifs with h1 h2
    · show gapsChainB m.timestamp m.retry_delay
        (((t, m.payload) :: (runRetries ts
          { m with retry_count := m.retry_count + 1, timestamp := t }).pubs).map
            Prod.fst) = true
      simp only [List.map_cons, gapsChainB, Bool.and_eq_true, decide_eq_true_eq]
      constructor
      · linarith
      · exact ih { m with retry_count := m.retry_count + 1, timestamp := t }
    · rfl
    · exact ih m

theorem runRetries_pubs_le :
    ∀ (ts : List Rat) (m : PendingMessage),
      m.retry_count ≤ m.max_retries →
      (runRetries ts m).pubs.length + m.retry_count ≤ m.max_retries := by
  intro ts
  induction ts with
  | nil => intro m h; simpa [runRetries] using h
  | cons t ts ih =>
    intro m h
    simp only [runRetries]
    split_ifs with h1 h2
    · have hrec : (runRetries ts
          { m with retry_count := m.retry_count + 1, timestamp := t }).pubs.length +
          (m.retry_count + 1) ≤ m.max_retries :=
        ih { m with retry_count := m.retry_count + 1, timestamp := t } h2
      show ((t, m.payload) :: (runRetries ts
          { m with retry_count := m.retry_count + 1, timestamp := t }).pubs).length +
          m.retry_count ≤ m.max_retries
      simp only [List.length_cons]
      omega
    · show ([] : List (Rat × String)).length + m.retry_count ≤ m.max_retries
      simpa using h
    · exact ih m h

theorem runRetries_fails_le :
    ∀ (ts : List Rat) (m : PendingMessage), (runRetries ts m).fails ≤ 1 := by
  intro ts
  induction ts with
  | nil => intro m; simp [runRetries]
  | cons t ts ih =>
    intro m
    simp only [runRetries]
    split_ifs with h1 h2
    · exact ih { m with retry_count := m.retry_count + 1, timestamp := t }
    · exact le_refl 1
    · exact ih m

theorem runRetries_fails_full :
    ∀ (ts : List Rat) (m : PendingMessage),
      m.retry_count ≤ m.max_retries →
      (runRetries ts m).fails = 1 →
      (runRetries ts m).pubs.length + m.retry_count = m.max_retries ∧
      (runRetries ts m).remaining = none := by
  intro ts
  induction ts with
  | nil => intro m _ hf; simp [runRetries] at hf
  | cons t ts ih =>
    intro m h hf
    simp only [runRetries] at hf ⊢
    split_ifs at hf ⊢ with h1 h2
    · have hrec := ih { m with retry_count := m.retry_count + 1, timestamp := t } h2 hf
      have hlen : (runRetries ts
          { m with retry_count := m.retry_count + 1, timestamp := t }).pubs.length +
          (m.retry_count + 1) = m.max_retries := hrec.1
      constructor
      · show ((t, m.payload) :: (runRetries ts
            { m with retry_count := m.retry_count + 1, timestamp := t }).pubs).length +
            m.retry_count = m.max_retries
        simp only [List.length_cons]
        omega
      · exact hrec.2
    · constructor
      · show ([] : List (Rat × String)).length + m.retry_count = m.max_retries
        simp only [List.length_nil]
        omega
      · rfl
    · exact ih m h hf

theorem runRetries_suffices :
    ∀ (ts : List Rat) (m : PendingMessage),
      m.retry_count ≤ m.max_retries →
      gapsChainB m.timestamp m.retry_delay ts = true →
      m.max_retries + 1 ≤ ts.length + m.retry_count →
      (runRetries ts m).fails = 1 := by
  intro ts
  induction ts with
  | nil => intro m h _ hlen; simp at hlen; omega
  | cons t ts ih =>
    intro m h hch hlen
    simp only [gapsChainB, Bool.and_eq_true, decide_eq_true_eq] at hch
    obtain ⟨hgap, hch'⟩ := hch
    simp only [runRetries]
    rw [if_pos (by linarith : t - m.timestamp > m.retry_delay)]
    by_cases h2 : m.retry_count < m.max_retries
    · rw [if_pos h2]
      refine ih { m with retry_count := m.retry_count + 1, timestamp := t } h2 hch' ?_
      show m.max_retries + 1 ≤ ts.length + (m.retry_count + 1)
      simp only [List.length_cons] at hlen
      omega
    · rw [if_neg h2]

/-- On a connected client tracking a single message, one run of
`_retry_pending_messages` transforms the tracked entry exactly as the
single-message projection `retryOne` dictates: republished with retry count
incremented and timestamp reset, evicted at the cap, or left untouched. -/
theorem retry_cycle_singleton (now : Rat) (mid : Nat) (m : PendingMessage)
    (counter : Nat) (s : MessageStats) :
    (retry_pending_messages now (fun _ => true)
       { connected := true, pending_messages := [(mid, m)],
         message_id_counter := counter, stats := s }).pending_messages =
      (match retryOne now m with
       | some m2 => [(mid, m2)]
       | none => []) := by
  by_cases h1 : now - m.timestamp > m.retry_delay
  · by_cases h2 : m.retry_count < m.max_retries
    · simp [retry_pending_messages, List.foldl, sweepStep, retryStep2, retryOne,
            h1, h2, lookupKey, upsert, containsKey]
    · simp [retry_pending_messages, List.foldl, sweepStep, retryStep2, retryOne,
            h1, h2, eraseKey]
  · simp [retry_pending_messages, List.foldl, sweepStep, retryStep2, retryOne,
          h1, lookupKey, upsert, containsKey]

/-- C1: a tracked message whose acknowledgment never arrives is republished
with its original payload on every cycle in which it is older than its
backoff interval while its retry count is below the cap: consecutive
republish instants are separated by more than the retry interval, at most
`max_retries` republishes ever happen and at most one permanent failure is
recorded, a recorded failure means exactly `max_retries` republishes happened
and the message left tracking, and enough sufficiently spaced cycles force
exactly that outcome. -/
theorem claim1_retry_lifecycle (m : PendingMessage) (ts : List Rat)
    (h0 : m.retry_count = 0) :
    (∀ pr ∈ (runRetries ts m).pubs, pr.2 = m.payload) ∧
    gapsChainB m.timestamp m.retry_delay
      ((runRetries ts m).pubs.map Prod.fst) = true ∧
    (runRetries ts m).pubs.length ≤ m.max_retries ∧
    (runRetries ts m).fails ≤ 1 ∧
    ((runRetries ts m).fails = 1 →
       (runRetries ts m).pubs.length = m.max_retries ∧
       (runRetries ts m).remaining = none) ∧
    (gapsChainB m.timestamp m.retry_delay ts = true →
       m.max_retries + 1 ≤ ts.length →
       (runRetries ts m).fails = 1) := by
  refine ⟨fun pr hm => runRetries_pubs_payload ts m pr hm,
          runRetries_gaps ts m, ?_, runRetries_fails_le ts m, ?_, ?_⟩
  · have := runRetries_pubs_le ts m (by omega)
    omega
  · intro hf
    have := runRetries_fails_full ts m (by omega) hf
    exact ⟨by omega, this.2⟩
  · intro hch hlen
    exact runRetries_suffices ts m (by omega) hch (by omega)

/-- Witness for C1: a freshly queued message (retry count 0, cap 3, backoff
2 s, queued at time 0) run through cycles at times 3, 6, 9 and 12 is marked
failed exactly once after exactly 3 republishes and leaves tracking. -/
theorem claim1_retry_lifecycle_witness :
    (runRetries [3, 6, 9, 12] pm0).fails = 1 ∧
    (runRetries [3, 6, 9, 12] pm0).pubs.length = 3 ∧
    (runRetries [3, 6, 9, 12] pm0).remaining = none := by
  have h := claim1_retry_lifecycle pm0 [3, 6, 9, 12] rfl
  have hf : (runRetries [3, 6, 9, 12] pm0).fails = 1 :=
    h.2.2.2.2.2 (by norm_num [gapsChainB, pm0]) (by norm_num [pm0])
  exact ⟨hf, (h.2.2.2.2.1 hf).1, (h.2.2.2.2.1 hf).2⟩

/-- C4: `publish` raises the transport-unavailable error exactly when no
broker connection exists and the caller did not request retry; with retry
requested and no connection, the message is instead registered as a
PendingMessage queued for a later send and its correlation id is returned. -/
theorem claim4_publish_contract :
    ∀ (st : MQTTClientState) (topic payload : String) (qos : Option Nat)
      (retry : Bool) (env : PublishEnv),
      ((publish st topic payload qos retry env).1 =
         Except.error PubError.notConnected ↔
         st.connected = false ∧ retry = false) ∧
      (st.connected = false → retry = true →
         (publish st topic payload qos retry env).1 =
           Except.ok (st.message_id_counter + 1) ∧
         lookupKey (st.message_id_counter + 1)
             (publish st topic payload qos retry env).2.pending_messages =
           some { message_id := st.message_id_counter + 1, topic := topic,
                  payload := payload, qos := effQos qos,
                  timestamp := env.now, retry_count := 0 }) := by
  intro st topic payload qos retry env
  constructor
  · by_cases hc : st.connected = false
    · by_cases hr : retry
      · simp [publish, hc, hr, queue_message_for_retry]
      · simp only [Bool.not_eq_true] at hr
        simp [publish, hc, hr]
    · simp only [Bool.not_eq_false] at hc
      by_cases he : env.rc_success
      · by_cases hq : effQos qos > 0 <;> simp [publish, hc, he, hq]
      · by_cases hr : retry
        · simp [publish, hc, he, hr, queue_message_for_retry]
        · simp only [Bool.not_eq_true] at hr
          simp [publish, hc, he, hr]
  · intro hc hr
    constructor
    · simp [publish, hc, hr, queue_message_for_retry]
    · have hst : (publish st topic payload qos retry env).2.pending_messages =
          upsert (st.message_id_counter + 1)
            { message_id := st.message_id_counter + 1, topic := topic,
              payload := payload, qos := effQos qos,
              timestamp := env.now, retry_count := 0 }
            st.pending_messages := by
        simp [publish, hc, hr, queue_message_for_retry]
      rw [hst]
      exact lookupKey_upsert _ _ _

/-- Witness for C4: on a fresh disconnected client with retry requested, the
publish queues mid 1 and the queued PendingMessage is retrievable, and with
retry declined the call raises the transport-unavailable error. -/
theorem claim4_publish_contract_witness :
    (publish {} "sensors/dht22/n1" "42" none true ⟨true, 7, 5⟩).1 =
      Except.ok 1 ∧
    lookupKey 1 (publish {} "sensors/dht22/n1" "42" none true
        ⟨true, 7, 5⟩).2.pending_messages =
      some { message_id := 1, topic := "sensors/dht22/n1", payload := "42",
             qos := 1, timestamp := 5, retry_count := 0 } ∧
    ((publish {} "sensors/dht22/n1" "42" none false ⟨true, 7, 5⟩).1 =
       Except.error PubError.notConnected ↔ ((false : Bool) = false ∧ (false : Bool) = false)) := by
  have h := claim4_publish_contract {} "sensors/dht22/n1" "42" none true ⟨true, 7, 5⟩
  have h' := claim4_publish_contract {} "sensors/dht22/n1" "42" none false ⟨true, 7, 5⟩
  exact ⟨(h.2 rfl rfl).1, (h.2 rfl rfl).2, h'.1⟩

/-! ## Fold lemmas for the retry cycle's bookkeeping -/

theorem sweep_foldl_inv (now : Rat) :
    ∀ (l : PendingMap) (acc : MQTTClientState × PendingMap),
      TrackInv acc.1 → TrackInv (l.foldl (sweepStep now) acc).1 := by
  intro l
  induction l with
  | nil => intro acc h; exact h
  | cons hd tl ih =>
    intro acc h
    simp only [List.foldl_cons]
    apply ih
    obtain ⟨mid, msg⟩ := hd
    obtain ⟨st, tr⟩ := acc
    simp only [sweepStep]
    split_ifs with h1 h2
    · exact h
    · exact rfl
    · exact h

theorem retry2_foldl_inv (now : Rat) (rcOf : Nat → Bool) :
    ∀ (l : PendingMap) (st : MQTTClientState),
      TrackInv st → TrackInv (l.foldl (retryStep2 now rcOf) st) := by
  intro l
  induction l with
  | nil => intro st h; exact h
  | cons hd tl ih =>
    intro st h
    simp only [List.foldl_cons]
    apply ih
    obtain ⟨mid, msg⟩ := hd
    simp only [retryStep2]
    cases hl : lookupKey mid st.pending_messages with
    | none => exact h
    | some cur =>
      have hc := containsKey_of_lookup hl
      have hlen : (upsert mid
          { cur with retry_count := cur.retry_count + 1, timestamp := now }
          st.pending_messages).length = st.pending_messages.length :=
        upsert_length_of_contains hc
      have hstat : (if rcOf mid = true then
            { st.stats with total_retried := st.stats.total_retried + 1 }
          else st.stats).pending_messages = st.stats.pending_messages := by
        split_ifs <;> rfl
      show (if rcOf mid = true then
              { st.stats with total_retried := st.stats.total_retried + 1 }
            else st.stats).pending_messages =
        (upsert mid { cur with retry_count := cur.retry_count + 1, timestamp := now }
          st.pending_messages).length
      rw [hstat, hlen]
      exact h

/-- C10: every tracking mutation — registering a successful publish, queueing
for retry, processing an acknowledgment, and the whole retry cycle including
terminal evictions — keeps the exposed pending-messages statistic equal to
the number of tracked PendingMessages, and an acknowledgment for an unknown
correlation id leaves the entire client state unchanged. -/
theorem claim10_pending_count_invariant (st : MQTTClientState)
    (h : TrackInv st) :
    (∀ (topic payload : String) (qos : Option Nat) (retry : Bool)
       (env : PublishEnv),
       TrackInv (publish st topic payload qos retry env).2) ∧
    (∀ (topic payload : String) (qos : Nat) (now : Rat),
       TrackInv (queue_message_for_retry st topic payload qos now).2) ∧
    (∀ mid, TrackInv (on_publish st mid)) ∧
    (∀ (now : Rat) (rcOf : Nat → Bool),
       TrackInv (retry_pending_messages now rcOf st)) ∧
    (∀ mid, lookupKey mid st.pending_messages = none →
       on_publish st mid = st) := by
  refine ⟨?_, ?_, ?_, ?_, ?_⟩
  · intro topic payload qos retry env
    by_cases hc : st.connected = false
    · by_cases hr : retry
      · simp [publish, hc, hr, queue_message_for_retry, TrackInv]
      · simp only [Bool.not_eq_true] at hr
        simpa [publish, hc, hr, TrackInv] using h
    · simp only [Bool.not_eq_false] at hc
      by_cases he : env.rc_success
      · by_cases hq : effQos qos > 0
        · simp [publish, hc, he, hq, TrackInv]
        · simpa [publish, hc, he, hq, TrackInv] using h
      · by_cases hr : retry
        · simp [publish, hc, he, hr, queue_message_for_retry, TrackInv]
        · simp only [Bool.not_eq_true] at hr
          simpa [publish, hc, he, hr, TrackInv] using h
  · intro topic payload qos now
    simp [queue_message_for_retry, TrackInv]
  · intro mid
    cases hl : lookupKey mid st.pending_messages with
    | none => simpa [on_publish, hl] using h
    | some v => simp [on_publish, hl, TrackInv]
  · intro now rcOf
    unfold retry_pending_messages
    split_ifs with hc
    · exact h
    · exact retry2_foldl_inv now rcOf _ _ (sweep_foldl_inv now _ _ h)
  · intro mid hmid
    simp [on_publish, hmid]

/-- Witness for C10 at the freshly initialized client: the pending statistic
matches after an acknowledgment callback for the unknown mid 5. -/
theorem claim10_pending_count_invariant_witness :
    TrackInv (on_publish ({} : MQTTClientState) 5) :=
  (claim10_pending_count_invariant {} rfl).2.2.1 5

end FallDetectionSpec
